import Mathlib

/-!
Shallow embedding of `cura/Settings/CuraStackBuilder.py` (class `CuraStackBuilder`):
the machine-construction orchestration of the layered settings-resolution engine.

The builder itself (`createMachine`, `createGlobalStack`, `createExtruderStack`,
`createUserChangesContainer`, `createDefinitionChangesContainer`) is translated
line by line from the source.  The collaborators the source obtains from the
application singleton (the container registry with its name-allocation helpers,
the stack types, the variant / material / quality managers and the logger) are
not part of the source tree and are modelled from the specification, each marked
`Modelled from the spec:` in its doc comment.

State is passed explicitly: the container registry plus the log form a
`BuildState`; a Python exception is an element of `BuildError`, and a raised
exception leaves the state accumulated so far visible (as Python's global
registry would be), so builder operations return `BuildState × Except BuildError α`
or thread the registry alongside an `Except` result.
-/

namespace Cura

/-- A metadata map (string keys to string values) as an association list. -/
abbrev MetaData := List (String × String)

/-- Look up a metadata entry; `none` models Python's default `None` for an
absent key. -/
def metaEntry : MetaData → String → Option String
  | [], _ => none
  | (k, v) :: rest, key => if k = key then some v else metaEntry rest key

/-- Association-list lookup for string-keyed maps (Python dict indexing /
`dict.get`). -/
def findPos {α : Type} : List (String × α) → String → Option α
  | [], _ => none
  | (k, v) :: rest, key => if k = key then some v else findPos rest key

/-- Truthiness of an optional string, as Python evaluates `if s:` for a value
that is either `None` or a string. -/
def truthy : Option String → Bool
  | none => false
  | some s => s ≠ ""

/-- Modelled from the spec: `UM.Util.parseBool` interprets a metadata value as a
boolean flag; an absent entry (the source passes default `False`) counts as
false. -/
def parseBool : Option String → Bool
  | none => false
  | some s => s = "True" || s = "true" || s = "Yes" || s = "yes" || s = "1"

/-- Python's `str` applied to an optional string (`None` prints as `"None"`),
used when formatting error messages. -/
def pyStr : Option String → String
  | none => "None"
  | some s => s

/-- Floor of a rational, computed from numerator and denominator with flooring
integer division. -/
def ratFloor (q : ℚ) : ℤ := Int.fdiv q.num q.den

/-- Python's builtin `round` on a rational value: nearest integer, ties to
even.  The source applies it to the machine definition's nominal material
diameter. -/
def pyRound (q : ℚ) : ℤ :=
  let f := ratFloor q
  if q - f < 1/2 then f
  else if (1 : ℚ)/2 < q - f then f + 1
  else if f % 2 = 0 then f else f + 1

/-- An instance container: variant, material, quality, quality-changes,
user-changes, definition-changes, or one of the application's empty
placeholder containers.  Identity is the unique string id; `definitionId`
records `setDefinition`. -/
structure InstanceContainer where
  id : String
  definitionId : String := ""
  metadata : MetaData := []
deriving DecidableEq

/-- A definition container (machine or extruder definition).
`machine_extruder_trains` is the dict-valued metadata entry mapping extruder
position keys to extruder definition ids (`none` when the entry is absent);
`material_diameter` is the value of the definition's own `material_diameter`
setting as read by `getProperty` (a well-formed definition supplies a value
for every declared key, so the value is total). -/
structure DefinitionContainer where
  id : String
  name : String
  metadata : MetaData := []
  machine_extruder_trains : Option (List (String × String)) := none
  material_diameter : ℚ := 0
deriving DecidableEq

/-- An extruder stack: the per-toolhead layered resolver.  `nextStackId` is the
non-owning back-reference to the parent global stack (`setNextStack`), stored
as an id as the spec's design notes direct. -/
structure ExtruderStack where
  id : String
  name : String
  definition : DefinitionContainer
  metadata : MetaData := []
  definitionChanges : InstanceContainer
  variant : InstanceContainer
  material : InstanceContainer
  quality : InstanceContainer
  qualityChanges : InstanceContainer
  userChanges : InstanceContainer
  nextStackId : Option String := none
deriving DecidableEq

/-- A global stack: the per-machine layered resolver, owning its extruder
stacks keyed by position (insertion-ordered, as a Python dict). -/
structure GlobalStack where
  id : String
  name : String
  definition : DefinitionContainer
  definitionChanges : InstanceContainer
  variant : InstanceContainer
  material : InstanceContainer
  quality : InstanceContainer
  qualityChanges : InstanceContainer
  userChanges : InstanceContainer
  extruders : List (String × ExtruderStack) := []
deriving DecidableEq

/-- `setNextStack`: set the back-reference to the parent global stack. -/
def ExtruderStack.setNextStack (e : ExtruderStack) (globalId : String) : ExtruderStack :=
  { e with nextStackId := some globalId }

/-- An entity registered in the container registry. -/
inductive Entity where
  | defC (d : DefinitionContainer)
  | instC (c : InstanceContainer)
  | extruderStack (s : ExtruderStack)
  | globalStack (s : GlobalStack)
deriving DecidableEq

/-- The unique id of a registered entity. -/
def Entity.entityId : Entity → String
  | .defC d => d.id
  | .instC c => c.id
  | .extruderStack s => s.id
  | .globalStack s => s.id

/-- The display name of a registered entity (instance containers carry their
id as name). -/
def Entity.entityName : Entity → String
  | .defC d => d.name
  | .instC c => c.id
  | .extruderStack s => s.name
  | .globalStack s => s.name

/-- Whether the entity is a registered global stack. -/
def Entity.isGlobalStack : Entity → Bool
  | .globalStack _ => true
  | _ => false

/-- Whether the entity is a registered extruder stack. -/
def Entity.isExtruderStack : Entity → Bool
  | .extruderStack _ => true
  | _ => false

/-- Whether the entity is a registered instance container. -/
def Entity.isInstanceContainer : Entity → Bool
  | .instC _ => true
  | _ => false

/-- The extruder stacks among a list of registered entities, in registration
order. -/
def extruderEntities (l : List Entity) : List ExtruderStack :=
  l.filterMap fun e => match e with
    | .extruderStack s => some s
    | _ => none

/-- The global stacks among a list of registered entities, in registration
order. -/
def globalEntities (l : List Entity) : List GlobalStack :=
  l.filterMap fun e => match e with
    | .globalStack s => some s
    | _ => none

/-- Modelled from the spec: the process-wide container registry, a catalog of
all containers and stacks in registration order. -/
structure ContainerRegistry where
  entities : List Entity := []
deriving DecidableEq

/-- Modelled from the spec: `addContainer` registers an entity (callers
pre-resolve id uniqueness via the name-allocation helpers, so the duplicate-id
check never fires in the builder's calls). -/
def ContainerRegistry.addContainer (reg : ContainerRegistry) (e : Entity) : ContainerRegistry :=
  { entities := reg.entities ++ [e] }

/-- Modelled from the spec: `findDefinitionContainers(id = ...)` returns the
registered definition containers with the given id, never raising for
absence. -/
def ContainerRegistry.findDefinitionContainers (reg : ContainerRegistry) (id : String) :
    List DefinitionContainer :=
  reg.entities.filterMap fun e => match e with
    | .defC d => if d.id = id then some d else none
    | _ => none

/-- Modelled from the spec: `findContainersMetadata(id = ...)` returns every
registered entity whose id equals the query, communicating absence by an empty
result. -/
def ContainerRegistry.findContainersMetadata (reg : ContainerRegistry) (id : String) :
    List Entity :=
  reg.entities.filter fun e => e.entityId = id

/-- Whether some registered entity uses the string as its id or name. -/
def ContainerRegistry.nameIsTaken (reg : ContainerRegistry) (s : String) : Bool :=
  reg.entities.any fun e => e.entityId = s || e.entityName = s

/-- Fuel-bounded search for the first free numbered candidate
`base #k`, `base #(k+1)`, ... used by `uniqueName`. -/
def uniqueNameFrom (reg : ContainerRegistry) (base : String) : Nat → Nat → String
  | k, 0 => base ++ " #" ++ toString k
  | k, fuel + 1 =>
    let cand := base ++ " #" ++ toString k
    if reg.nameIsTaken cand then uniqueNameFrom reg base (k + 1) fuel else cand

/-- Modelled from the spec: `uniqueName(candidate)` returns the candidate
unchanged if no existing entity uses it, otherwise appends an incrementing
numeric suffix (`name #2`, `name #3`, ...) until free. -/
def ContainerRegistry.uniqueName (reg : ContainerRegistry) (candidate : String) : String :=
  if reg.nameIsTaken candidate then
    uniqueNameFrom reg candidate 2 (2 * reg.entities.length + 2)
  else candidate

/-- Modelled from the spec: whether an entity is a stack of the given kind
(`"machine"` matches global stacks, `"extruder"` extruder stacks), the
population against which `createUniqueName` checks stack-name uniqueness. -/
def Entity.isStackOfKind : Entity → String → Bool
  | .globalStack _, "machine" => true
  | .extruderStack _, "extruder" => true
  | _, _ => false

/-- Whether some registered stack of the given kind already carries the
string as its name. -/
def ContainerRegistry.stackNameIsTaken (reg : ContainerRegistry) (kind s : String) : Bool :=
  reg.entities.any fun e => e.isStackOfKind kind && e.entityName = s

/-- Fuel-bounded search for the first free numbered candidate among stack
names of the given kind, used by `createUniqueName`. -/
def stackUniqueNameFrom (reg : ContainerRegistry) (kind base : String) : Nat → Nat → String
  | k, 0 => base ++ " #" ++ toString k
  | k, fuel + 1 =>
    let cand := base ++ " #" ++ toString k
    if reg.stackNameIsTaken kind cand then stackUniqueNameFrom reg kind base (k + 1) fuel
    else cand

/-- Allocate a name unique among registered stacks of the given kind by
appending a numeric suffix when taken. -/
def ContainerRegistry.stackUniqueName (reg : ContainerRegistry) (kind candidate : String) :
    String :=
  if reg.stackNameIsTaken kind candidate then
    stackUniqueNameFrom reg kind candidate 2 (2 * reg.entities.length + 2)
  else candidate

/-- Modelled from the spec: `createUniqueName(kind, currentName, newName,
fallbackName)` allocates a stack-name-unique name for `newName` when it is
non-empty and differs from `currentName`, and for `fallbackName` otherwise. -/
def ContainerRegistry.createUniqueName (reg : ContainerRegistry)
    (kind currentName newName fallbackName : String) : String :=
  if newName ≠ "" && newName ≠ currentName then reg.stackUniqueName kind newName
  else reg.stackUniqueName kind fallbackName

/-- A Python exception escaping the builder: the explicit `raise RuntimeError`
consistency errors of the source, plus the unhandled exceptions of unguarded
operations (indexing an empty lookup result, a missing dict key, an attribute
access on `None`) and the spec's duplicate-position error of `addExtruder`. -/
inductive BuildError where
  | runtimeError (msg : String)
  | indexError
  | keyError (key : String)
  | attributeError
  | duplicatePositionError
deriving DecidableEq

/-- The registry plus the diagnostic log (level, message) entries, the mutable
state the builder acts on. -/
structure BuildState where
  registry : ContainerRegistry
  log : List (String × String) := []
deriving DecidableEq

/-- Modelled from the spec: `Logger.log(level, message)` is a fire-and-forget
diagnostic sink; it never affects control flow. -/
def logMessage (st : BuildState) (level msg : String) : BuildState :=
  { st with log := st.log ++ [(level, msg)] }

/-- Modelled from the spec: a quality group bundles one global-level quality
container with a mapping from extruder position to that position's quality
container. -/
structure QualityGroup where
  node_for_global : InstanceContainer
  nodes_for_extruders : List (String × InstanceContainer)
deriving DecidableEq

/-- Modelled from the spec: the application singleton as seen by the builder:
the empty placeholder containers, the setting version, and the variant /
material / quality collaborators (each manager's node accessor composed with
`getContainer`, since the builder immediately unwraps every node it
receives). -/
structure CuraApplication where
  empty_variant_container : InstanceContainer
  empty_material_container : InstanceContainer
  empty_quality_container : InstanceContainer
  empty_quality_changes_container : InstanceContainer
  setting_version : String
  getVariantNode : String → String → Option InstanceContainer
  getRootMaterialIDForDiameter : Option String → String → Option String
  getMaterialNode : String → Option String → ℚ → Option String → Option InstanceContainer
  getQualityGroups : GlobalStack → List (String × QualityGroup)

/-- Modelled from the spec: `GlobalStack.addExtruder` attaches the extruder
stack under its own declared `position` metadata; an already-occupied position
is a duplicate-position error and leaves the map unchanged. -/
def GlobalStack.addExtruder (g : GlobalStack) (e : ExtruderStack) :
    Except BuildError GlobalStack :=
  match metaEntry e.metadata "position" with
  | none => .error (.runtimeError "extruder stack declares no position")
  | some pos =>
    if (findPos g.extruders pos).isSome then .error .duplicatePositionError
    else .ok { g with extruders := g.extruders ++ [(pos, e)] }

/-- `CuraStackBuilder.createUserChangesContainer`: build (but do not register)
a fresh empty user-changes container named uniquely from the stack id, tagged
`type = user` and back-referencing the owning stack. -/
def createUserChangesContainer (app : CuraApplication) (reg : ContainerRegistry)
    (container_name definition_id stack_id : String) (is_global_stack : Bool) :
    InstanceContainer :=
  let unique_container_name := reg.uniqueName container_name
  { id := unique_container_name
    definitionId := definition_id
    metadata := [("type", "user"), ("setting_version", app.setting_version),
      ((if is_global_stack then "machine" else "extruder"), stack_id)] }

/-- `CuraStackBuilder.createDefinitionChangesContainer`: build and register a
fresh empty definition-changes container named uniquely from the stack id,
tagged `type = definition_changes` and based on the stack's bottom
definition. -/
def createDefinitionChangesContainer (app : CuraApplication) (reg : ContainerRegistry)
    (bottom_definition_id container_name : String) :
    InstanceContainer × ContainerRegistry :=
  let unique_container_name := reg.uniqueName container_name
  let definition_changes_container : InstanceContainer :=
    { id := unique_container_name
      definitionId := bottom_definition_id
      metadata := [("type", "definition_changes"), ("setting_version", app.setting_version)] }
  (definition_changes_container, reg.addContainer (.instC definition_changes_container))

/-- `CuraStackBuilder.createGlobalStack`: construct a global stack on the given
definition, wire its slots (creating and registering fresh definition-changes
and user-changes containers), and register the user container last. -/
def createGlobalStack (app : CuraApplication) (reg : ContainerRegistry)
    (new_stack_id : String) (definition : DefinitionContainer)
    (variant_container material_container quality_container : InstanceContainer) :
    GlobalStack × ContainerRegistry :=
  let user_container :=
    createUserChangesContainer app reg (new_stack_id ++ "_user") definition.id new_stack_id true
  let dc := createDefinitionChangesContainer app reg definition.id (new_stack_id ++ "_settings")
  let stack : GlobalStack :=
    { id := new_stack_id
      name := new_stack_id
      definition := definition
      definitionChanges := dc.1
      variant := variant_container
      material := material_container
      quality := quality_container
      qualityChanges := app.empty_quality_changes_container
      userChanges := user_container
      extruders := [] }
  (stack, dc.2.addContainer (.instC user_container))

/-- `CuraStackBuilder.createExtruderStack`: construct an extruder stack on the
given extruder definition, record its position metadata, wire its slots
(creating and registering fresh definition-changes and user-changes
containers), and register the user container last. -/
def createExtruderStack (app : CuraApplication) (reg : ContainerRegistry)
    (new_stack_id : String) (extruder_definition : DefinitionContainer)
    (machine_definition_id position : String)
    (variant_container material_container quality_container : InstanceContainer) :
    ExtruderStack × ContainerRegistry :=
  let user_container :=
    createUserChangesContainer app reg (new_stack_id ++ "_user") machine_definition_id
      new_stack_id false
  let dc :=
    createDefinitionChangesContainer app reg extruder_definition.id (new_stack_id ++ "_settings")
  let stack : ExtruderStack :=
    { id := new_stack_id
      name := extruder_definition.name
      definition := extruder_definition
      metadata := [("position", position)]
      definitionChanges := dc.1
      variant := variant_container
      material := material_container
      quality := quality_container
      qualityChanges := app.empty_quality_changes_container
      userChanges := user_container
      nextStackId := none }
  (stack, dc.2.addContainer (.instC user_container))

/-- The preferred variant name the source ends up with: `None` unless the
machine declares `has_variants`, in which case the `preferred_variant_name`
metadata entry. -/
def preferredVariantName (machine_definition : DefinitionContainer) : Option String :=
  if parseBool (metaEntry machine_definition.metadata "has_variants") then
    metaEntry machine_definition.metadata "preferred_variant_name"
  else none

/-- The variant-resolution step of `createMachine`: the extruders' variant
container starts as the empty placeholder; when the machine has variants and
names a (truthy) preferred variant, the variant manager must resolve it, a
miss raising the source's sanity-check `RuntimeError`. -/
def resolveVariantContainer (app : CuraApplication) (machine_definition : DefinitionContainer)
    (definition_id : String) : Except BuildError (InstanceContainer × Option String) :=
  let variant_name := preferredVariantName machine_definition
  if truthy variant_name then
    match app.getVariantNode definition_id (pyStr variant_name) with
    | none =>
      .error (.runtimeError ("Cannot find variant with definition [" ++ definition_id ++
        "] and variant name [" ++ pyStr variant_name ++ "]"))
    | some variant_node => .ok (variant_node, variant_name)
  else .ok (app.empty_variant_container, variant_name)

/-- The material-resolution step of `createMachine`: the extruders' material
container starts as the empty placeholder; when the machine has materials, the
nominal diameter is read from the definition's `material_diameter` setting,
rounded (`str(round(...))`) for the root-material lookup, and the concrete
material node is resolved for (definition, variant name, unrounded diameter,
root material id), a miss raising the source's sanity-check `RuntimeError`. -/
def resolveMaterialContainer (app : CuraApplication) (machine_definition : DefinitionContainer)
    (definition_id : String) (variant_name : Option String) :
    Except BuildError InstanceContainer :=
  if parseBool (metaEntry machine_definition.metadata "has_materials") then
    let material_diameter := machine_definition.material_diameter
    let approximate_material_diameter := toString (pyRound material_diameter)
    let root_material_id := metaEntry machine_definition.metadata "preferred_material"
    let root_material_id :=
      app.getRootMaterialIDForDiameter root_material_id approximate_material_diameter
    match app.getMaterialNode definition_id variant_name material_diameter root_material_id with
    | none =>
      .error (.runtimeError ("Cannot find material with definition [" ++ definition_id ++
        "], variant_name [" ++ pyStr variant_name ++ "], and root_material_id [" ++
        pyStr root_material_id ++ "]"))
    | some material_node => .ok material_node
  else .ok app.empty_material_container

/-- The display-name step of `createMachine`: `createUniqueName("machine", "",
name, definition name)` first, then a second pass through `uniqueName` only
when some registered container or definition already uses the generated string
as its id. -/
def generatedMachineName (reg : ContainerRegistry) (name : String)
    (machine_definition : DefinitionContainer) : String :=
  let generated_name := reg.createUniqueName "machine" "" name machine_definition.name
  if (reg.findContainersMetadata generated_name).isEmpty then generated_name
  else reg.uniqueName generated_name

/-- The per-position loop of `createMachine`: for each `(position, extruder
definition id)` pair of `machine_extruder_trains`, resolve the extruder
definition (unguarded indexing, so absence is an index error), check its own
`position` metadata against the listing (mismatch raises the source's
`RuntimeError`), build the extruder stack under a freshly uniquified id, link
it to the global stack, attach it, and register it.  The registry accumulated
so far is returned even when an exception is raised. -/
def createExtruderStacks (app : CuraApplication) (definition_id : String)
    (variant_container material_container : InstanceContainer) :
    List (String × String) → GlobalStack → ContainerRegistry →
    ContainerRegistry × Except BuildError GlobalStack
  | [], global_stack, reg => (reg, .ok global_stack)
  | (position, extruder_definition_id) :: rest, global_stack, reg =>
    match reg.findDefinitionContainers extruder_definition_id with
    | [] => (reg, .error .indexError)
    | extruder_definition :: _ =>
      let position_in_extruder_def := metaEntry extruder_definition.metadata "position"
      if position_in_extruder_def ≠ some position then
        (reg, .error (.runtimeError ("Extruder position [" ++ pyStr position_in_extruder_def ++
          "] defined in extruder definition [" ++ extruder_definition_id ++
          "] is not the same as in machine definition [" ++ definition_id ++
          "] position [" ++ position ++ "]")))
      else
        let new_extruder_id := reg.uniqueName extruder_definition_id
        let ne := createExtruderStack app reg new_extruder_id extruder_definition
          definition_id position variant_container material_container
          app.empty_quality_container
        let new_extruder := ne.1.setNextStack global_stack.id
        match global_stack.addExtruder new_extruder with
        | .error e => (ne.2, .error e)
        | .ok global_stack2 =>
          createExtruderStacks app definition_id variant_container material_container rest
            global_stack2 (ne.2.addContainer (.extruderStack new_extruder))

/-- The per-extruder half of the quality step: each extruder's quality slot
receives the quality group's container for that extruder's position; a
position missing from the group's mapping is an unguarded dict access, a key
error. -/
def assignExtruderQualities (quality_group : QualityGroup) :
    List (String × ExtruderStack) → Except BuildError (List (String × ExtruderStack))
  | [] => .ok []
  | (position, extruder_stack) :: rest =>
    match findPos quality_group.nodes_for_extruders position with
    | none => .error (.keyError position)
    | some qc =>
      match assignExtruderQualities quality_group rest with
      | .error e => .error e
      | .ok rest2 => .ok ((position, { extruder_stack with quality := qc }) :: rest2)

/-- The quality step of `createMachine`: fetch the quality groups for the
fully-extruded global stack, select the group keyed by the definition's
`preferred_quality_type` (an absent entry or key yields `None`, and the
subsequent unguarded attribute access is an attribute error), and assign the
group's containers to the global and extruder quality slots. -/
def applyPreferredQuality (app : CuraApplication) (machine_definition : DefinitionContainer)
    (global_stack : GlobalStack) : Except BuildError GlobalStack :=
  let preferred_quality_type := metaEntry machine_definition.metadata "preferred_quality_type"
  let quality_group_dict := app.getQualityGroups global_stack
  match preferred_quality_type.bind (fun t => findPos quality_group_dict t) with
  | none => .error .attributeError
  | some quality_group =>
    match assignExtruderQualities quality_group global_stack.extruders with
    | .error e => .error e
    | .ok extruders2 =>
      .ok { global_stack with
        quality := quality_group.node_for_global
        extruders := extruders2 }

/-- `CuraStackBuilder.createMachine`: resolve the machine definition (absence
is soft: log a warning, return `None`), resolve the extruders' variant and
material containers, allocate the display name, build the global stack with
empty placeholder variant / material / quality, build, link and register every
declared extruder stack, apply the preferred quality, and register the global
stack last. -/
def createMachine (app : CuraApplication) (st : BuildState) (name definition_id : String) :
    BuildState × Except BuildError (Option GlobalStack) :=
  match st.registry.findDefinitionContainers definition_id with
  | [] =>
    (logMessage st "w" ("Definition " ++ definition_id ++ " was not found!"), .ok none)
  | machine_definition :: _ =>
    match resolveVariantContainer app machine_definition definition_id with
    | .error e => (st, .error e)
    | .ok vr =>
      match resolveMaterialContainer app machine_definition definition_id vr.2 with
      | .error e => (st, .error e)
      | .ok material_container =>
        let generated_name := generatedMachineName st.registry name machine_definition
        let gsr := createGlobalStack app st.registry generated_name machine_definition
          app.empty_variant_container app.empty_material_container
          app.empty_quality_container
        let new_global_stack := { gsr.1 with name := generated_name }
        match machine_definition.machine_extruder_trains with
        | none => ({ st with registry := gsr.2 }, .error .attributeError)
        | some extruder_dict =>
          match createExtruderStacks app definition_id vr.1 material_container
              extruder_dict new_global_stack gsr.2 with
          | (reg2, .error e) => ({ st with registry := reg2 }, .error e)
          | (reg2, .ok global_stack2) =>
            match applyPreferredQuality app machine_definition global_stack2 with
            | .error e => ({ st with registry := reg2 }, .error e)
            | .ok global_stack3 =>
              ({ st with registry := reg2.addContainer (.globalStack global_stack3) },
                .ok (some global_stack3))

/-! ### Concrete scenarios used to exercise the builder -/

/-- Extract the returned global stack of a builder run, if any. -/
def resultGlobalStack (r : BuildState × Except BuildError (Option GlobalStack)) :
    Option GlobalStack :=
  match r.2 with
  | .ok og => og
  | .error _ => none

/-- Whether a builder run returned a global stack. -/
def isOkSome (r : Except BuildError (Option GlobalStack)) : Bool :=
  match r with
  | .ok (some _) => true
  | _ => false

/-- Extract the global stack of an extruder-loop result, if any. -/
def loopGlobalStack (r : ContainerRegistry × Except BuildError GlobalStack) :
    Option GlobalStack :=
  match r.2 with
  | .ok g => some g
  | .error _ => none

/-- Placeholder instance container used only as an `Option.getD` default. -/
def dummyInstanceContainer : InstanceContainer := { id := "" }

/-- Placeholder definition container used only as an `Option.getD` default. -/
def dummyDefinitionContainer : DefinitionContainer := { id := "", name := "" }

/-- Placeholder global stack used only as an `Option.getD` default. -/
def dummyGlobalStack : GlobalStack :=
  { id := "", name := "", definition := dummyDefinitionContainer,
    definitionChanges := dummyInstanceContainer, variant := dummyInstanceContainer,
    material := dummyInstanceContainer, quality := dummyInstanceContainer,
    qualityChanges := dummyInstanceContainer, userChanges := dummyInstanceContainer }

/-- The application's empty variant placeholder container. -/
def evc : InstanceContainer := { id := "empty_variant" }

/-- The application's empty material placeholder container. -/
def emc : InstanceContainer := { id := "empty_material" }

/-- The application's empty quality placeholder container. -/
def eqcW : InstanceContainer := { id := "empty_quality" }

/-- The application's empty quality-changes placeholder container. -/
def eqccW : InstanceContainer := { id := "empty_quality_changes" }

/-- Global-level quality container of the `normal` quality group. -/
def qWg : InstanceContainer := { id := "normal_quality_global" }

/-- Position-0 quality container of the `normal` quality group. -/
def qW0 : InstanceContainer := { id := "normal_quality_0" }

/-- Position-1 quality container of the `normal` quality group. -/
def qW1 : InstanceContainer := { id := "normal_quality_1" }

/-- A well-formed two-extruder machine definition. -/
def mdW : DefinitionContainer :=
  { id := "um3", name := "Ultimaker 3",
    metadata := [("preferred_quality_type", "normal")],
    machine_extruder_trains := some [("0", "um3_extruder_0"), ("1", "um3_extruder_1")] }

/-- Extruder definition for position 0 of `mdW`. -/
def edW0 : DefinitionContainer :=
  { id := "um3_extruder_0", name := "Extruder 0", metadata := [("position", "0")] }

/-- Extruder definition for position 1 of `mdW`. -/
def edW1 : DefinitionContainer :=
  { id := "um3_extruder_1", name := "Extruder 1", metadata := [("position", "1")] }

/-- Application whose quality collaborator offers the `normal` group for both
positions and whose variant / material collaborators resolve nothing. -/
def appW : CuraApplication :=
  { empty_variant_container := evc
    empty_material_container := emc
    empty_quality_container := eqcW
    empty_quality_changes_container := eqccW
    setting_version := "5"
    getVariantNode := fun _ _ => none
    getRootMaterialIDForDiameter := fun r _ => r
    getMaterialNode := fun _ _ _ _ => none
    getQualityGroups := fun _ =>
      [("normal",
        { node_for_global := qWg, nodes_for_extruders := [("0", qW0), ("1", qW1)] })] }

/-- Initial state: the three definitions of the two-extruder machine are
registered, nothing else. -/
def stW : BuildState :=
  { registry := { entities := [.defC mdW, .defC edW0, .defC edW1] } }

/-- The run that builds the two-extruder machine. -/
def runW : BuildState × Except BuildError (Option GlobalStack) :=
  createMachine appW stW "My Printer" "um3"

/-- The global stack returned by `runW`. -/
def gW : GlobalStack := (resultGlobalStack runW).getD dummyGlobalStack

/-- A machine declaring `has_variants` without naming a preferred variant. -/
def mdV : DefinitionContainer :=
  { id := "mv", name := "Variant Machine",
    metadata := [("has_variants", "true"), ("preferred_quality_type", "normal")],
    machine_extruder_trains := some [("0", "mv_e0")] }

/-- Extruder definition for position 0 of `mdV`. -/
def edV0 : DefinitionContainer :=
  { id := "mv_e0", name := "E0", metadata := [("position", "0")] }

/-- Application whose variant collaborator can resolve no variant at all and
whose quality collaborator offers the `normal` group for position 0. -/
def appV : CuraApplication :=
  { empty_variant_container := evc
    empty_material_container := emc
    empty_quality_container := eqcW
    empty_quality_changes_container := eqccW
    setting_version := "5"
    getVariantNode := fun _ _ => none
    getRootMaterialIDForDiameter := fun r _ => r
    getMaterialNode := fun _ _ _ _ => none
    getQualityGroups := fun _ =>
      [("normal", { node_for_global := qWg, nodes_for_extruders := [("0", qW0)] })] }

/-- Initial state for the `mdV` scenario. -/
def stV : BuildState := { registry := { entities := [.defC mdV, .defC edV0] } }

/-- A machine declaring `has_variants` with a preferred variant name. -/
def mdV2 : DefinitionContainer :=
  { id := "mv2", name := "Variant Machine 2",
    metadata := [("has_variants", "true"), ("preferred_variant_name", "AA 0.4")] }

/-- Initial state for the `mdV2` scenario. -/
def stV2 : BuildState := { registry := { entities := [.defC mdV2] } }

/-- A machine declaring `has_materials` whose material collaborator resolves
no node. -/
def mdM : DefinitionContainer :=
  { id := "mm", name := "Material Machine",
    metadata := [("has_materials", "true"), ("preferred_material", "generic_pla")],
    material_diameter := 57/20 }

/-- Initial state for the `mdM` scenario. -/
def stM : BuildState := { registry := { entities := [.defC mdM] } }

/-- A machine listing its extruder under position 1 while the extruder
definition itself declares position 0. -/
def mdA : DefinitionContainer :=
  { id := "mA", name := "Mismatched Machine",
    machine_extruder_trains := some [("1", "eA")] }

/-- The mismatched extruder definition: listed at 1, declares 0. -/
def edA : DefinitionContainer :=
  { id := "eA", name := "EA", metadata := [("position", "0")] }

/-- Initial state for the mismatch scenario. -/
def stA : BuildState := { registry := { entities := [.defC mdA, .defC edA] } }

/-- A machine whose second listed extruder mismatches: position 1 lists an
extruder definition that itself declares position 5. -/
def mdB : DefinitionContainer :=
  { id := "mB", name := "Mismatched Machine B",
    machine_extruder_trains := some [("0", "eB0"), ("1", "eB1")] }

/-- The matching extruder definition at position 0 of `mdB`. -/
def edB0 : DefinitionContainer :=
  { id := "eB0", name := "EB0", metadata := [("position", "0")] }

/-- The mismatching extruder definition of `mdB`: listed at 1, declares 5. -/
def edB1 : DefinitionContainer :=
  { id := "eB1", name := "EB1", metadata := [("position", "5")] }

/-- Initial state for the second-position mismatch scenario. -/
def stB : BuildState := { registry := { entities := [.defC mdB, .defC edB0, .defC edB1] } }

/-- The successful first iteration of the `mdB` extruder loop, after which the
mismatch at position 1 is reached. -/
def c2LoopCall : ContainerRegistry × Except BuildError GlobalStack :=
  createExtruderStacks appV "mB" appV.empty_variant_container
    appV.empty_material_container [("0", "eB0")]
    { (createGlobalStack appV stB.registry
        (generatedMachineName stB.registry "Printer" mdB) mdB
        appV.empty_variant_container appV.empty_material_container
        appV.empty_quality_container).1
      with name := generatedMachineName stB.registry "Printer" mdB }
    (createGlobalStack appV stB.registry
        (generatedMachineName stB.registry "Printer" mdB) mdB
        appV.empty_variant_container appV.empty_material_container
        appV.empty_quality_container).2

/-- The one-extruder global stack after the first iteration of the `mdB`
loop. -/
def c2G1 : GlobalStack := (loopGlobalStack c2LoopCall).getD dummyGlobalStack

/-- Application used when the quality collaborator offers no groups at all. -/
def appW9 : CuraApplication :=
  { empty_variant_container := evc
    empty_material_container := emc
    empty_quality_container := eqcW
    empty_quality_changes_container := eqccW
    setting_version := "5"
    getVariantNode := fun _ _ => none
    getRootMaterialIDForDiameter := fun r _ => r
    getMaterialNode := fun _ _ _ _ => none
    getQualityGroups := fun _ => [] }

/-- The extruder-creation stage of the `appW9` run, through which the quality
lookup is reached. -/
def c9LoopCall : ContainerRegistry × Except BuildError GlobalStack :=
  createExtruderStacks appW9 "um3" appW9.empty_variant_container
    appW9.empty_material_container
    [("0", "um3_extruder_0"), ("1", "um3_extruder_1")]
    { (createGlobalStack appW9 stW.registry
        (generatedMachineName stW.registry "My Printer" mdW) mdW
        appW9.empty_variant_container appW9.empty_material_container
        appW9.empty_quality_container).1
      with name := generatedMachineName stW.registry "My Printer" mdW }
    (createGlobalStack appW9 stW.registry
        (generatedMachineName stW.registry "My Printer" mdW) mdW
        appW9.empty_variant_container appW9.empty_material_container
        appW9.empty_quality_container).2

/-- The fully-extruded global stack of the `appW9` run. -/
def c9G2 : GlobalStack := (loopGlobalStack c9LoopCall).getD dummyGlobalStack

/-! ### Structural lemmas about the building blocks -/

/-- `createGlobalStack` returns a stack with the requested id, definition and
slot containers, no extruders attached, and registers exactly two fresh
instance containers (definition-changes then user-changes). -/
theorem createGlobalStack_spec (app : CuraApplication) (reg : ContainerRegistry)
    (nid : String) (d : DefinitionContainer) (vc mc qc : InstanceContainer) :
    ∃ c1 c2 : InstanceContainer,
      createGlobalStack app reg nid d vc mc qc =
        ({ id := nid, name := nid, definition := d, definitionChanges := c1,
           variant := vc, material := mc, quality := qc,
           qualityChanges := app.empty_quality_changes_container,
           userChanges := c2, extruders := [] },
         { entities := reg.entities ++ [.instC c1] ++ [.instC c2] }) :=
  ⟨_, _, rfl⟩

/-- `createExtruderStack` returns a stack with the requested id, the extruder
definition's name, the given position metadata and slot containers, no parent
back-reference yet, and registers exactly two fresh instance containers. -/
theorem createExtruderStack_spec (app : CuraApplication) (reg : ContainerRegistry)
    (nid : String) (ed : DefinitionContainer) (did pos : String)
    (vc mc qc : InstanceContainer) :
    ∃ c1 c2 : InstanceContainer,
      createExtruderStack app reg nid ed did pos vc mc qc =
        ({ id := nid, name := ed.name, definition := ed, metadata := [("position", pos)],
           definitionChanges := c1, variant := vc, material := mc, quality := qc,
           qualityChanges := app.empty_quality_changes_container,
           userChanges := c2, nextStackId := none },
         { entities := reg.entities ++ [.instC c1] ++ [.instC c2] }) :=
  ⟨_, _, rfl⟩

/-- Successful `addExtruder` appends the extruder under its declared position,
which was previously unoccupied. -/
theorem addExtruder_ok {g : GlobalStack} {e : ExtruderStack} {g' : GlobalStack}
    (h : g.addExtruder e = .ok g') :
    ∃ pos, metaEntry e.metadata "position" = some pos ∧
      findPos g.extruders pos = none ∧
      g' = { g with extruders := g.extruders ++ [(pos, e)] } := by
  unfold GlobalStack.addExtruder at h
  split at h
  next => exact absurd h (by simp)
  next pos hm =>
    split at h
    next => exact absurd h (by simp)
    next hns =>
      refine ⟨pos, hm, Option.not_isSome_iff_eq_none.mp hns, ?_⟩
      exact (Except.ok.inj h).symm

/-- Adding an instance container leaves definition lookup unchanged. -/
theorem findDefinitionContainers_addInstC (reg : ContainerRegistry) (c : InstanceContainer)
    (id : String) :
    (reg.addContainer (.instC c)).findDefinitionContainers id =
      reg.findDefinitionContainers id := by
  simp [ContainerRegistry.addContainer, ContainerRegistry.findDefinitionContainers,
    List.filterMap_append]

/-- `globalEntities` distributes over appending registration lists. -/
theorem globalEntities_append (a b : List Entity) :
    globalEntities (a ++ b) = globalEntities a ++ globalEntities b := by
  simp [globalEntities, List.filterMap_append]

/-- `extruderEntities` distributes over appending registration lists. -/
theorem extruderEntities_append (a b : List Entity) :
    extruderEntities (a ++ b) = extruderEntities a ++ extruderEntities b := by
  simp [extruderEntities, List.filterMap_append]

/-- The extruder-creation loop over an appended train list runs the first part
and, if it succeeds, continues with the second part from the accumulated
global stack and registry. -/
theorem createExtruderStacks_append (app : CuraApplication) (did : String)
    (vc mc : InstanceContainer) :
    ∀ (l1 l2 : List (String × String)) (g : GlobalStack) (reg : ContainerRegistry),
      createExtruderStacks app did vc mc (l1 ++ l2) g reg =
        match createExtruderStacks app did vc mc l1 g reg with
        | (reg', .error e) => (reg', .error e)
        | (reg', .ok g') => createExtruderStacks app did vc mc l2 g' reg' := by
  intro l1
  induction l1 with
  | nil =>
    intro l2 g reg
    simp only [List.nil_append, createExtruderStacks]
  | cons head rest ih =>
    obtain ⟨position, eid⟩ := head
    intro l2 g reg
    simp only [List.cons_append, createExtruderStacks]
    cases hfd : reg.findDefinitionContainers eid with
    | nil => rfl
    | cons ed eds =>
      by_cases hpos : metaEntry ed.metadata "position" ≠ some position
      · simp only [if_pos hpos]
      · simp only [if_neg hpos]
        split
        next e hadd => rfl
        next gs2 hadd => exact ih l2 gs2 _

/-- Definition lookup ignores appended entities that are all instance
containers or extruder stacks. -/
theorem findDefinitionContainers_of_entities_append (reg base : ContainerRegistry)
    (added : List Entity)
    (hent : reg.entities = base.entities ++ added)
    (h : ∀ e ∈ added, Entity.isInstanceContainer e = true ∨
      Entity.isExtruderStack e = true)
    (id : String) :
    reg.findDefinitionContainers id = base.findDefinitionContainers id := by
  unfold ContainerRegistry.findDefinitionContainers
  rw [hent, List.filterMap_append]
  have hnil : List.filterMap (fun e => match e with
      | Entity.defC d => if d.id = id then some d else none
      | _ => none) added = [] := by
    rw [List.filterMap_eq_nil_iff]
    intro e he
    rcases h e he with hi | hx
    · cases e <;> simp_all [Entity.isInstanceContainer]
    · cases e <;> simp_all [Entity.isExtruderStack]
  rw [hnil, List.append_nil]

/-- Invariant of a successful run of the extruder-creation loop: the registry
grows by appended entities only, none of them a global stack, whose extruder
stacks are exactly (and in order) the extruders newly attached to the global
stack; every attached extruder carries its listed position in its own metadata
and in its definition's metadata, points back at the global stack, and holds
the resolved variant and material with the empty quality placeholder. -/
theorem createExtruderStacks_ok_spec (app : CuraApplication) (did : String)
    (vc mc : InstanceContainer) :
    ∀ (trains : List (String × String)) (g : GlobalStack) (reg reg' : ContainerRegistry)
      (g' : GlobalStack),
      createExtruderStacks app did vc mc trains g reg = (reg', .ok g') →
      ∃ (added : List Entity) (news : List (String × ExtruderStack)),
        reg'.entities = reg.entities ++ added ∧
        globalEntities added = [] ∧
        (∀ e ∈ added, Entity.isInstanceContainer e = true ∨
          Entity.isExtruderStack e = true) ∧
        extruderEntities added = news.map Prod.snd ∧
        g' = { g with extruders := g.extruders ++ news } ∧
        news.length = trains.length ∧
        ∀ pv ∈ news,
          metaEntry pv.2.metadata "position" = some pv.1 ∧
          metaEntry pv.2.definition.metadata "position" = some pv.1 ∧
          pv.2.nextStackId = some g.id ∧
          pv.2.variant = vc ∧ pv.2.material = mc ∧
          pv.2.quality = app.empty_quality_container := by
  intro trains
  induction trains with
  | nil =>
    intro g reg reg' g' h
    simp only [createExtruderStacks] at h
    injection h with h1 h2
    injection h2 with h3
    refine ⟨[], [], by simp [h1], rfl, by simp, rfl, by simp [h3], rfl, by simp⟩
  | cons head rest ih =>
    obtain ⟨position, eid⟩ := head
    intro g reg reg' g' h
    simp only [createExtruderStacks] at h
    cases hfd : reg.findDefinitionContainers eid with
    | nil => simp only [hfd] at h; exact absurd h (by simp)
    | cons ed eds =>
      simp only [hfd] at h
      split at h
      next => exact absurd h (by simp)
      next hposn =>
        have hpos : metaEntry ed.metadata "position" = some position := not_not.mp hposn
        split at h
        next e hadd => exact absurd h (by simp)
        next gs2 hadd =>
          obtain ⟨c1, c2, hces⟩ := createExtruderStack_spec app reg
            (ContainerRegistry.uniqueName reg eid) ed did position vc mc
            app.empty_quality_container
          rw [hces] at hadd h
          dsimp only [ExtruderStack.setNextStack] at hadd h
          obtain ⟨pos0, hm, hfp, hgs2⟩ := addExtruder_ok hadd
          simp only [metaEntry, if_pos rfl] at hm
          injection hm with hm0
          subst hm0
          subst hgs2
          obtain ⟨added', news', hreg, hglob, hnodef, hext, hgfin, hlen, hfacts⟩ :=
            ih _ _ reg' g' h
          refine ⟨[.instC c1, .instC c2,
              .extruderStack ⟨ContainerRegistry.uniqueName reg eid, ed.name, ed,
                [("position", position)], c1, vc, mc, app.empty_quality_container,
                app.empty_quality_changes_container, c2, some g.id⟩] ++ added',
            (position, ⟨ContainerRegistry.uniqueName reg eid, ed.name, ed,
                [("position", position)], c1, vc, mc, app.empty_quality_container,
                app.empty_quality_changes_container, c2, some g.id⟩) :: news',
            ?_, ?_, ?_, ?_, ?_, ?_, ?_⟩
          · rw [hreg]
            simp [ContainerRegistry.addContainer, List.append_assoc]
          · rw [globalEntities_append, hglob]
            simp [globalEntities]
          · intro e he
            rcases List.mem_append.mp he with h3 | h4
            · rcases h3 with _ | ⟨_, _ | ⟨_, _ | ⟨_, h0⟩⟩⟩
              · left; rfl
              · left; rfl
              · right; rfl
              · cases h0
            · exact hnodef e h4
          · rw [extruderEntities_append, hext]
            simp [extruderEntities]
          · rw [hgfin]
            simp [List.append_assoc]
          · simpa using hlen
          · intro pv hpv
            cases hpv with
            | head =>
              exact ⟨by simp [metaEntry], hpos, rfl, rfl, rfl, rfl⟩
            | tail _ htail =>
              have hf := hfacts pv htail
              simpa using hf

/-- A successful quality-assignment pass preserves positions, ids and all
other per-extruder data, and sets each extruder's quality slot to the quality
group's container for that extruder's position. -/
theorem assignExtruderQualities_ok_facts (qg : QualityGroup) :
    ∀ (l l2 : List (String × ExtruderStack)),
      assignExtruderQualities qg l = .ok l2 →
      l2.map Prod.fst = l.map Prod.fst ∧
      l2.map (fun pe => pe.2.id) = l.map (fun pe => pe.2.id) ∧
      (∀ pe ∈ l2, findPos qg.nodes_for_extruders pe.1 = some pe.2.quality) ∧
      (∀ pe ∈ l2, ∃ pe0, pe0 ∈ l ∧ pe.1 = pe0.1 ∧
        pe.2 = { pe0.2 with quality := pe.2.quality }) := by
  intro l
  induction l with
  | nil =>
    intro l2 h
    simp only [assignExtruderQualities] at h
    injection h with h1
    subst h1
    exact ⟨rfl, rfl, by simp, by simp⟩
  | cons head rest ih =>
    obtain ⟨position, es⟩ := head
    intro l2 h
    simp only [assignExtruderQualities] at h
    cases hq : findPos qg.nodes_for_extruders position with
    | none => simp only [hq] at h; exact absurd h (by simp)
    | some qc =>
      simp only [hq] at h
      cases hrest : assignExtruderQualities qg rest with
      | error e => simp only [hrest] at h; exact absurd h (by simp)
      | ok rest2 =>
        simp only [hrest] at h
        injection h with h1
        subst h1
        obtain ⟨hfst, hid, hfind, hbase⟩ := ih rest2 hrest
        refine ⟨by simp [hfst], by simp [hid], ?_, ?_⟩
        · intro pe hpe
          cases hpe with
          | head => simpa using hq
          | tail _ htail => exact hfind pe htail
        · intro pe hpe
          cases hpe with
          | head => exact ⟨(position, es), by simp, rfl, rfl⟩
          | tail _ htail =>
            obtain ⟨pe0, hmem, h1, h2⟩ := hbase pe htail
            exact ⟨pe0, by simp [hmem], h1, h2⟩

/-- Inversion of a successful quality step: the preferred quality type keys an
existing quality group, whose global container lands in the global quality
slot and whose per-position containers land in the extruders. -/
theorem applyPreferredQuality_ok {app : CuraApplication} {md : DefinitionContainer}
    {g g3 : GlobalStack} (h : applyPreferredQuality app md g = .ok g3) :
    ∃ qg exts,
      (metaEntry md.metadata "preferred_quality_type").bind
        (fun t => findPos (app.getQualityGroups g) t) = some qg ∧
      assignExtruderQualities qg g.extruders = .ok exts ∧
      g3 = { g with quality := qg.node_for_global, extruders := exts } := by
  simp only [applyPreferredQuality] at h
  split at h
  next => exact absurd h (by simp)
  next qg hq =>
    split at h
    next => exact absurd h (by simp)
    next exts hexts =>
      exact ⟨qg, exts, hq, hexts, (Except.ok.inj h).symm⟩

/-- Inversion of a successful `createMachine` run: the machine definition was
found, variant and material resolution succeeded, the global stack was built
under the generated name with empty placeholders, every declared extruder was
created, the preferred quality was applied, and the finished global stack was
registered last. -/
theorem createMachine_ok_inv {app : CuraApplication} {st : BuildState}
    {name definition_id : String} {st2 : BuildState} {g : GlobalStack}
    (h : createMachine app st name definition_id = (st2, .ok (some g))) :
    ∃ md rest vr mc extruder_dict reg2 g2,
      st.registry.findDefinitionContainers definition_id = md :: rest ∧
      resolveVariantContainer app md definition_id = .ok vr ∧
      resolveMaterialContainer app md definition_id vr.2 = .ok mc ∧
      md.machine_extruder_trains = some extruder_dict ∧
      createExtruderStacks app definition_id vr.1 mc extruder_dict
        { (createGlobalStack app st.registry (generatedMachineName st.registry name md) md
            app.empty_variant_container app.empty_material_container
            app.empty_quality_container).1
          with name := generatedMachineName st.registry name md }
        (createGlobalStack app st.registry (generatedMachineName st.registry name md) md
            app.empty_variant_container app.empty_material_container
            app.empty_quality_container).2 = (reg2, .ok g2) ∧
      applyPreferredQuality app md g2 = .ok g ∧
      st2 = { st with registry := reg2.addContainer (.globalStack g) } := by
  unfold createMachine at h
  cases hfd : st.registry.findDefinitionContainers definition_id with
  | nil => simp only [hfd] at h; exact absurd h (by simp)
  | cons md rest =>
    simp only [hfd] at h
    cases hvr : resolveVariantContainer app md definition_id with
    | error e => simp only [hvr] at h; exact absurd h (by simp)
    | ok vr =>
      simp only [hvr] at h
      cases hmc : resolveMaterialContainer app md definition_id vr.2 with
      | error e => simp only [hmc] at h; exact absurd h (by simp)
      | ok mc =>
        simp only [hmc] at h
        cases htr : md.machine_extruder_trains with
        | none => simp only [htr] at h; exact absurd h (by simp)
        | some extruder_dict =>
          simp only [htr] at h
          cases hloop : createExtruderStacks app definition_id vr.1 mc extruder_dict
              { (createGlobalStack app st.registry (generatedMachineName st.registry name md) md
                  app.empty_variant_container app.empty_material_container
                  app.empty_quality_container).1
                with name := generatedMachineName st.registry name md }
              (createGlobalStack app st.registry (generatedMachineName st.registry name md) md
                  app.empty_variant_container app.empty_material_container
                  app.empty_quality_container).2 with
          | mk reg2 res =>
            rw [hloop] at h
            cases res with
            | error e => exact absurd h (by simp)
            | ok g2 =>
              cases hq : applyPreferredQuality app md g2 with
              | error e => simp only [hq] at h; exact absurd h (by simp)
              | ok g3 =>
                simp only [hq] at h
                obtain ⟨hst, hok⟩ := Prod.mk.inj h
                injection hok with hok1
                injection hok1 with hok2
                subst hok2
                refine ⟨md, rest, vr, mc, extruder_dict, reg2, g2, ?_, ?_, ?_, ?_, ?_, ?_, ?_⟩
                · rfl
                · exact hvr
                · exact hmc
                · exact htr
                · exact hloop
                · exact hq
                · exact hst.symm

/-- Definition lookup is unchanged by the two instance containers the global
stack construction registers. -/
theorem findDefinitionContainers_two_instC (reg : ContainerRegistry)
    (c1 c2 : InstanceContainer) (id : String) :
    ContainerRegistry.findDefinitionContainers
      { entities := reg.entities ++ [.instC c1] ++ [.instC c2] } id =
      reg.findDefinitionContainers id := by
  simp [ContainerRegistry.findDefinitionContainers, List.filterMap_append]

/-! ### Claim theorems -/

/-- C3: whenever the registry has no definition container with the requested
id, `createMachine` logs a warning and returns no result, leaving the registry
untouched; conversely the no-result outcome arises only in that absence case
(every other path returns a stack or raises). -/
theorem claim_c3_definition_not_found (app : CuraApplication) (st : BuildState)
    (name definition_id : String) :
    (st.registry.findDefinitionContainers definition_id = [] →
      createMachine app st name definition_id =
        (logMessage st "w" ("Definition " ++ definition_id ++ " was not found!"),
          .ok none)) ∧
    (∀ st2, createMachine app st name definition_id = (st2, .ok none) →
      st.registry.findDefinitionContainers definition_id = [] ∧
      st2.registry = st.registry ∧
      st2.log = st.log ++ [("w", "Definition " ++ definition_id ++ " was not found!")]) := by
  constructor
  · intro hfd
    unfold createMachine
    simp only [hfd]
  · intro st2 h
    unfold createMachine at h
    cases hfd : st.registry.findDefinitionContainers definition_id with
    | nil =>
      simp only [hfd] at h
      obtain ⟨h1, _⟩ := Prod.mk.inj h
      refine ⟨rfl, ?_, ?_⟩ <;> simp [← h1, logMessage]
    | cons md rest =>
      exfalso
      simp only [hfd] at h
      cases hvr : resolveVariantContainer app md definition_id with
      | error e => simp [hvr] at h
      | ok vr =>
        simp only [hvr] at h
        cases hmc : resolveMaterialContainer app md definition_id vr.2 with
        | error e => simp [hmc] at h
        | ok mc =>
          simp only [hmc] at h
          cases htr : md.machine_extruder_trains with
          | none => simp [htr] at h
          | some extruder_dict =>
            simp only [htr] at h
            cases hloop : createExtruderStacks app definition_id vr.1 mc extruder_dict
                { (createGlobalStack app st.registry
                    (generatedMachineName st.registry name md) md
                    app.empty_variant_container app.empty_material_container
                    app.empty_quality_container).1
                  with name := generatedMachineName st.registry name md }
                (createGlobalStack app st.registry
                    (generatedMachineName st.registry name md) md
                    app.empty_variant_container app.empty_material_container
                    app.empty_quality_container).2 with
            | mk reg2 res =>
              rw [hloop] at h
              cases res with
              | error e => simp at h
              | ok g2 =>
                cases hq : applyPreferredQuality app md g2 with
                | error e => simp [hq] at h
                | ok g3 => simp [hq] at h

/-- C4 (amended): when the machine declares `has_variants` *and names a
non-empty preferred variant*, a variant-collaborator miss makes
`createMachine` raise the sanity-check consistency error before touching the
registry. -/
theorem claim_c4_missing_variant_raises (app : CuraApplication) (st : BuildState)
    (name definition_id : String) (md : DefinitionContainer)
    (rest : List DefinitionContainer) (vn : String)
    (hfd : st.registry.findDefinitionContainers definition_id = md :: rest)
    (hhv : parseBool (metaEntry md.metadata "has_variants") = true)
    (hvn : metaEntry md.metadata "preferred_variant_name" = some vn)
    (hvne : vn ≠ "")
    (hmiss : app.getVariantNode definition_id vn = none) :
    createMachine app st name definition_id =
      (st, .error (.runtimeError ("Cannot find variant with definition [" ++ definition_id ++
        "] and variant name [" ++ vn ++ "]"))) := by
  have hvar : resolveVariantContainer app md definition_id =
      .error (.runtimeError ("Cannot find variant with definition [" ++ definition_id ++
        "] and variant name [" ++ vn ++ "]")) := by
    unfold resolveVariantContainer preferredVariantName
    rw [hhv]
    simp only [if_true]
    rw [hvn]
    simp only [truthy, pyStr]
    rw [if_pos (by simp [hvne]), hmiss]
  unfold createMachine
  simp only [hfd, hvar]

/-- C5: when the machine declares `has_materials`, the concrete material node
is looked up for the definition, the resolved variant name, the unrounded
nominal diameter and the root material resolved against the rounded
(`str(round(...))`) diameter; a miss makes `createMachine` raise the
sanity-check consistency error before touching the registry. -/
theorem claim_c5_missing_material_raises (app : CuraApplication) (st : BuildState)
    (name definition_id : String) (md : DefinitionContainer)
    (rest : List DefinitionContainer) (vr : InstanceContainer × Option String)
    (hfd : st.registry.findDefinitionContainers definition_id = md :: rest)
    (hvar : resolveVariantContainer app md definition_id = .ok vr)
    (hhm : parseBool (metaEntry md.metadata "has_materials") = true)
    (hmiss : app.getMaterialNode definition_id vr.2 md.material_diameter
        (app.getRootMaterialIDForDiameter (metaEntry md.metadata "preferred_material")
          (toString (pyRound md.material_diameter))) = none) :
    createMachine app st name definition_id =
      (st, .error (.runtimeError ("Cannot find material with definition [" ++ definition_id ++
        "], variant_name [" ++ pyStr vr.2 ++ "], and root_material_id [" ++
        pyStr (app.getRootMaterialIDForDiameter (metaEntry md.metadata "preferred_material")
          (toString (pyRound md.material_diameter))) ++ "]"))) := by
  have hmat : resolveMaterialContainer app md definition_id vr.2 =
      .error (.runtimeError ("Cannot find material with definition [" ++ definition_id ++
        "], variant_name [" ++ pyStr vr.2 ++ "], and root_material_id [" ++
        pyStr (app.getRootMaterialIDForDiameter (metaEntry md.metadata "preferred_material")
          (toString (pyRound md.material_diameter))) ++ "]")) := by
    unfold resolveMaterialContainer
    rw [hhm]
    simp only [if_true]
    rw [hmiss]
  unfold createMachine
  simp only [hfd, hvar, hmat]

/-- C2 (amended): an extruder definition whose own position metadata differs
from its listing — at *any* listed position, the earlier positions having
built successfully — makes `createMachine` raise the consistency error with no
global stack registered by the call and exactly one extruder stack per
*earlier* position registered (none for the mismatching or later positions);
the helper instance containers and those earlier extruder stacks, however,
remain registered, so the call does not register *nothing*. -/
theorem claim_c2_mismatch_partial_registration (app : CuraApplication) (st : BuildState)
    (name definition_id : String) (md : DefinitionContainer)
    (rest : List DefinitionContainer) (vr : InstanceContainer × Option String)
    (mc : InstanceContainer) (pre : List (String × String)) (p eid : String)
    (post : List (String × String)) (ed : DefinitionContainer)
    (eds : List DefinitionContainer) (reg1 : ContainerRegistry) (g1 : GlobalStack)
    (hfd : st.registry.findDefinitionContainers definition_id = md :: rest)
    (hvar : resolveVariantContainer app md definition_id = .ok vr)
    (hmat : resolveMaterialContainer app md definition_id vr.2 = .ok mc)
    (htr : md.machine_extruder_trains = some (pre ++ (p, eid) :: post))
    (hpre : createExtruderStacks app definition_id vr.1 mc pre
        { (createGlobalStack app st.registry (generatedMachineName st.registry name md) md
            app.empty_variant_container app.empty_material_container
            app.empty_quality_container).1
          with name := generatedMachineName st.registry name md }
        (createGlobalStack app st.registry (generatedMachineName st.registry name md) md
            app.empty_variant_container app.empty_material_container
            app.empty_quality_container).2 = (reg1, .ok g1))
    (hed : st.registry.findDefinitionContainers eid = ed :: eds)
    (hmm : metaEntry ed.metadata "position" ≠ some p) :
    ∃ added : List Entity,
      createMachine app st name definition_id =
        ({ st with registry := { entities := st.registry.entities ++ added } },
         .error (.runtimeError ("Extruder position [" ++
           pyStr (metaEntry ed.metadata "position") ++
           "] defined in extruder definition [" ++ eid ++
           "] is not the same as in machine definition [" ++ definition_id ++
           "] position [" ++ p ++ "]"))) ∧
      globalEntities added = [] ∧
      (extruderEntities added).length = pre.length := by
  obtain ⟨cg1, cg2, hgs⟩ := createGlobalStack_spec app st.registry
    (generatedMachineName st.registry name md) md app.empty_variant_container
    app.empty_material_container app.empty_quality_container
  rw [hgs] at hpre
  obtain ⟨addedL, news, hregL, hglobL, hnodefL, hextL, hgfin, hlen, hfacts⟩ :=
    createExtruderStacks_ok_spec app definition_id vr.1 mc pre _ _ reg1 g1 hpre
  have hreg1 : reg1 = ContainerRegistry.mk
      (st.registry.entities ++ ([.instC cg1] ++ [.instC cg2] ++ addedL)) := by
    cases reg1 with
    | mk ents =>
      simp only at hregL
      rw [hregL]
      simp [List.append_assoc]
  have hnodefAll : ∀ e ∈ [Entity.instC cg1] ++ [Entity.instC cg2] ++ addedL,
      Entity.isInstanceContainer e = true ∨ Entity.isExtruderStack e = true := by
    intro e he
    rcases List.mem_append.mp he with h12 | hL
    · rcases List.mem_append.mp h12 with h1 | h2
      · rcases h1 with _ | ⟨_, h0⟩
        · left; rfl
        · cases h0
      · rcases h2 with _ | ⟨_, h0⟩
        · left; rfl
        · cases h0
    · exact hnodefL e hL
  have hfd1 : ContainerRegistry.findDefinitionContainers
      (ContainerRegistry.mk
        (st.registry.entities ++ ([Entity.instC cg1] ++ [Entity.instC cg2] ++ addedL)))
      eid = ed :: eds := by
    rw [findDefinitionContainers_of_entities_append
      (ContainerRegistry.mk
        (st.registry.entities ++ ([Entity.instC cg1] ++ [Entity.instC cg2] ++ addedL)))
      st.registry ([Entity.instC cg1] ++ [Entity.instC cg2] ++ addedL) rfl hnodefAll eid]
    exact hed
  refine ⟨[Entity.instC cg1] ++ [Entity.instC cg2] ++ addedL, ?_, ?_, ?_⟩
  · unfold createMachine
    simp only [hfd, hvar, hmat, htr, hgs]
    rw [createExtruderStacks_append]
    rw [hpre]
    simp only [hreg1, createExtruderStacks, hfd1, if_pos hmm]
  · rw [globalEntities_append, globalEntities_append, hglobL]
    simp [globalEntities]
  · rw [extruderEntities_append, extruderEntities_append, hextL]
    simp [extruderEntities, hlen]

/-- C1: in every successful run, all registrations are appended to the
registry with the fully-extruded global stack as the very last entity — the
only global stack the call registers — after one extruder stack per declared
train, and the registered extruder stacks are exactly (by id and in order) the
extruders attached to the returned global stack. -/
theorem claim_c1_global_registered_last (app : CuraApplication) (st : BuildState)
    (name definition_id : String) (st2 : BuildState) (g : GlobalStack)
    (md : DefinitionContainer) (rest : List DefinitionContainer)
    (trains : List (String × String))
    (hrun : createMachine app st name definition_id = (st2, .ok (some g)))
    (hfd : st.registry.findDefinitionContainers definition_id = md :: rest)
    (htr : md.machine_extruder_trains = some trains) :
    ∃ added : List Entity,
      st2.registry.entities = st.registry.entities ++ added ∧
      globalEntities added = [g] ∧
      added.getLast? = some (.globalStack g) ∧
      (extruderEntities added).length = trains.length ∧
      (extruderEntities added).map ExtruderStack.id = g.extruders.map (fun pe => pe.2.id) ∧
      g.extruders.length = trains.length := by
  obtain ⟨md', rest', vr, mc, trains', reg2, g2, hfd', hvr, hmc, htr', hloop, hq, hst2⟩ :=
    createMachine_ok_inv hrun
  rw [hfd] at hfd'
  injection hfd' with h1 h2
  subst h1
  subst h2
  rw [htr] at htr'
  injection htr' with h3
  subst h3
  obtain ⟨cg1, cg2, hgs⟩ := createGlobalStack_spec app st.registry
    (generatedMachineName st.registry name md) md app.empty_variant_container
    app.empty_material_container app.empty_quality_container
  rw [hgs] at hloop
  obtain ⟨addedL, news, hregL, hglobL, hnodefL, hextL, hgfin, hlen, hfacts⟩ :=
    createExtruderStacks_ok_spec app definition_id vr.1 mc trains _ _ reg2 g2 hloop
  obtain ⟨qg, exts, hqg, hassign, hgdef⟩ := applyPreferredQuality_ok hq
  obtain ⟨hfst, hid, hfindq, hbase⟩ :=
    assignExtruderQualities_ok_facts qg g2.extruders exts hassign
  have hgx : g.extruders = exts := by rw [hgdef]
  have hg2x : g2.extruders = news := by rw [hgfin]; simp
  refine ⟨([.instC cg1, .instC cg2] ++ addedL) ++ [.globalStack g], ?_, ?_, ?_, ?_, ?_, ?_⟩
  · rw [hst2]
    simp only [ContainerRegistry.addContainer, hregL]
    simp [List.append_assoc]
  · rw [globalEntities_append, globalEntities_append, hglobL]
    simp [globalEntities]
  · exact List.getLast?_concat _
  · rw [extruderEntities_append, extruderEntities_append, hextL]
    simp [extruderEntities, hlen]
  · rw [extruderEntities_append, extruderEntities_append, hextL]
    rw [hgx, hid, hg2x]
    simp [extruderEntities, List.map_map, Function.comp]
  · rw [hgx]
    have := congrArg List.length hid
    simp only [List.length_map] at this
    rw [this, hg2x]
    simp [hlen]

/-- C6: a successful run returns a global stack whose own variant and material
slots hold the empty placeholder containers while every attached extruder
holds the variant and material containers resolved earlier — the resolved
containers are never applied to the global stack itself. -/
theorem claim_c6_variant_material_asymmetry (app : CuraApplication) (st : BuildState)
    (name definition_id : String) (st2 : BuildState) (g : GlobalStack)
    (md : DefinitionContainer) (rest : List DefinitionContainer)
    (vc : InstanceContainer) (vn : Option String) (mc : InstanceContainer)
    (hrun : createMachine app st name definition_id = (st2, .ok (some g)))
    (hfd : st.registry.findDefinitionContainers definition_id = md :: rest)
    (hvar : resolveVariantContainer app md definition_id = .ok (vc, vn))
    (hmat : resolveMaterialContainer app md definition_id vn = .ok mc) :
    g.variant = app.empty_variant_container ∧
    g.material = app.empty_material_container ∧
    ∀ pe ∈ g.extruders, pe.2.variant = vc ∧ pe.2.material = mc := by
  obtain ⟨md', rest', vr, mc', trains', reg2, g2, hfd', hvr, hmc, htr', hloop, hq, hst2⟩ :=
    createMachine_ok_inv hrun
  rw [hfd] at hfd'
  injection hfd' with h1 h2
  subst h1
  subst h2
  rw [hvar] at hvr
  injection hvr with h3
  subst h3
  rw [hmat] at hmc
  injection hmc with h4
  subst h4
  obtain ⟨cg1, cg2, hgs⟩ := createGlobalStack_spec app st.registry
    (generatedMachineName st.registry name md) md app.empty_variant_container
    app.empty_material_container app.empty_quality_container
  rw [hgs] at hloop
  obtain ⟨addedL, news, hregL, hglobL, hnodefL, hextL, hgfin, hlen, hfacts⟩ :=
    createExtruderStacks_ok_spec app definition_id (vc, vn).1 mc trains' _ _ reg2 g2 hloop
  obtain ⟨qg, exts, hqg, hassign, hgdef⟩ := applyPreferredQuality_ok hq
  obtain ⟨hfst, hid, hfindq, hbase⟩ :=
    assignExtruderQualities_ok_facts qg g2.extruders exts hassign
  have hg2x : g2.extruders = news := by rw [hgfin]; simp
  refine ⟨?_, ?_, ?_⟩
  · rw [hgdef, hgfin]
  · rw [hgdef, hgfin]
  · intro pe hpe
    have hpe2 : pe ∈ exts := by
      have hgx : g.extruders = exts := by rw [hgdef]
      rw [hgx] at hpe
      exact hpe
    obtain ⟨pe0, hmem0, hp1, hp2⟩ := hbase pe hpe2
    rw [hg2x] at hmem0
    obtain ⟨hmpos, hdpos, hnext, hvx, hmx, hqx⟩ := hfacts pe0 hmem0
    constructor
    · rw [hp2]
      exact hvx
    · rw [hp2]
      exact hmx

/-- C7: a successful run names the returned global stack by the two-step rule:
`createUniqueName("machine", "", name, definition name)` first, then a second
pass through `uniqueName` exactly when some registered entity already uses the
generated string as its id; an empty requested name falls back to the
definition's name. -/
theorem claim_c7_name_allocation (app : CuraApplication) (st : BuildState)
    (name definition_id : String) (st2 : BuildState) (g : GlobalStack)
    (md : DefinitionContainer) (rest : List DefinitionContainer)
    (hrun : createMachine app st name definition_id = (st2, .ok (some g)))
    (hfd : st.registry.findDefinitionContainers definition_id = md :: rest) :
    g.name = generatedMachineName st.registry name md ∧
    (st.registry.findContainersMetadata
        (st.registry.createUniqueName "machine" "" name md.name) = [] →
      g.name = st.registry.createUniqueName "machine" "" name md.name) ∧
    (st.registry.findContainersMetadata
        (st.registry.createUniqueName "machine" "" name md.name) ≠ [] →
      g.name = st.registry.uniqueName
        (st.registry.createUniqueName "machine" "" name md.name)) ∧
    (name ≠ "" → st.registry.createUniqueName "machine" "" name md.name =
      st.registry.stackUniqueName "machine" name) ∧
    (name = "" → st.registry.createUniqueName "machine" "" name md.name =
      st.registry.stackUniqueName "machine" md.name) := by
  obtain ⟨md', rest', vr, mc', trains', reg2, g2, hfd', hvr, hmc, htr', hloop, hq, hst2⟩ :=
    createMachine_ok_inv hrun
  rw [hfd] at hfd'
  injection hfd' with h1 h2
  subst h1
  subst h2
  obtain ⟨cg1, cg2, hgs⟩ := createGlobalStack_spec app st.registry
    (generatedMachineName st.registry name md) md app.empty_variant_container
    app.empty_material_container app.empty_quality_container
  rw [hgs] at hloop
  obtain ⟨addedL, news, hregL, hglobL, hnodefL, hextL, hgfin, hlen, hfacts⟩ :=
    createExtruderStacks_ok_spec app definition_id vr.1 mc' trains' _ _ reg2 g2 hloop
  obtain ⟨qg, exts, hqg, hassign, hgdef⟩ := applyPreferredQuality_ok hq
  have hname : g.name = generatedMachineName st.registry name md := by
    rw [hgdef, hgfin]
  refine ⟨hname, ?_, ?_, ?_, ?_⟩
  · intro hempty
    rw [hname]
    simp only [generatedMachineName, hempty]
    simp
  · intro hnonempty
    rw [hname]
    simp only [generatedMachineName]
    cases hcase : st.registry.findContainersMetadata
        (st.registry.createUniqueName "machine" "" name md.name) with
    | nil => exact absurd hcase hnonempty
    | cons a l => simp [hcase]
  · intro hne
    unfold ContainerRegistry.createUniqueName
    rw [if_pos (by simp [hne])]
  · intro he
    unfold ContainerRegistry.createUniqueName
    rw [if_neg (by simp [he])]

/-- C8: a successful run selects, for the fully-extruded global stack, the
quality group keyed by the definition's `preferred_quality_type` from the
quality collaborator, puts its global-level container into the global quality
slot, and gives every attached extruder the group's container for its
position. -/
theorem claim_c8_applies_preferred_quality (app : CuraApplication) (st : BuildState)
    (name definition_id : String) (st2 : BuildState) (g : GlobalStack)
    (md : DefinitionContainer) (rest : List DefinitionContainer)
    (hrun : createMachine app st name definition_id = (st2, .ok (some g)))
    (hfd : st.registry.findDefinitionContainers definition_id = md :: rest) :
    ∃ vr mc trains reg2 g2 qg,
      resolveVariantContainer app md definition_id = .ok vr ∧
      resolveMaterialContainer app md definition_id vr.2 = .ok mc ∧
      md.machine_extruder_trains = some trains ∧
      createExtruderStacks app definition_id vr.1 mc trains
        { (createGlobalStack app st.registry (generatedMachineName st.registry name md) md
            app.empty_variant_container app.empty_material_container
            app.empty_quality_container).1
          with name := generatedMachineName st.registry name md }
        (createGlobalStack app st.registry (generatedMachineName st.registry name md) md
            app.empty_variant_container app.empty_material_container
            app.empty_quality_container).2 = (reg2, .ok g2) ∧
      (metaEntry md.metadata "preferred_quality_type").bind
        (fun t => findPos (app.getQualityGroups g2) t) = some qg ∧
      g.quality = qg.node_for_global ∧
      g.extruders.map Prod.fst = g2.extruders.map Prod.fst ∧
      (∀ pe ∈ g.extruders, findPos qg.nodes_for_extruders pe.1 = some pe.2.quality) := by
  obtain ⟨md', rest', vr, mc, trains, reg2, g2, hfd', hvr, hmc, htr', hloop, hq, hst2⟩ :=
    createMachine_ok_inv hrun
  rw [hfd] at hfd'
  injection hfd' with h1 h2
  subst h1
  subst h2
  obtain ⟨qg, exts, hqg, hassign, hgdef⟩ := applyPreferredQuality_ok hq
  obtain ⟨hfst, hid, hfindq, hbase⟩ :=
    assignExtruderQualities_ok_facts qg g2.extruders exts hassign
  have hgx : g.extruders = exts := by rw [hgdef]
  refine ⟨vr, mc, trains, reg2, g2, qg, hvr, hmc, htr', hloop, hqg, ?_, ?_, ?_⟩
  · rw [hgdef]
  · rw [hgx, hfst]
  · intro pe hpe
    rw [hgx] at hpe
    exact hfindq pe hpe

/-- C9: the quality-group lookup is the unguarded step — when the group
mapping has no entry for the preferred quality type the run fails with an
unhandled attribute error (not one of the raised consistency errors), and a
run can only return a stack when such a group exists. -/
theorem claim_c9_quality_group_precondition (app : CuraApplication) (st : BuildState)
    (name definition_id : String) (md : DefinitionContainer)
    (rest : List DefinitionContainer) (vr : InstanceContainer × Option String)
    (mc : InstanceContainer) (trains : List (String × String))
    (reg2 : ContainerRegistry) (g2 : GlobalStack)
    (hfd : st.registry.findDefinitionContainers definition_id = md :: rest)
    (hvar : resolveVariantContainer app md definition_id = .ok vr)
    (hmat : resolveMaterialContainer app md definition_id vr.2 = .ok mc)
    (htr : md.machine_extruder_trains = some trains)
    (hloop : createExtruderStacks app definition_id vr.1 mc trains
        { (createGlobalStack app st.registry (generatedMachineName st.registry name md) md
            app.empty_variant_container app.empty_material_container
            app.empty_quality_container).1
          with name := generatedMachineName st.registry name md }
        (createGlobalStack app st.registry (generatedMachineName st.registry name md) md
            app.empty_variant_container app.empty_material_container
            app.empty_quality_container).2 = (reg2, .ok g2)) :
    ((metaEntry md.metadata "preferred_quality_type").bind
        (fun t => findPos (app.getQualityGroups g2) t) = none →
      createMachine app st name definition_id =
        ({ st with registry := reg2 }, .error .attributeError)) ∧
    (∀ st2 g, createMachine app st name definition_id = (st2, .ok (some g)) →
      ∃ qg, (metaEntry md.metadata "preferred_quality_type").bind
        (fun t => findPos (app.getQualityGroups g2) t) = some qg) := by
  constructor
  · intro hnone
    have hq : applyPreferredQuality app md g2 = .error .attributeError := by
      simp only [applyPreferredQuality, hnone]
    unfold createMachine
    simp only [hfd, hvar, hmat, htr, hloop, hq]
  · intro st2 g hrun2
    unfold createMachine at hrun2
    simp only [hfd, hvar, hmat, htr, hloop] at hrun2
    cases hqq : applyPreferredQuality app md g2 with
    | error e => simp [hqq] at hrun2
    | ok g3 =>
      obtain ⟨qg, exts, hbind, _, _⟩ := applyPreferredQuality_ok hqq
      exact ⟨qg, hbind⟩

/-- C10: every extruder stack registered by a successful run carries, already
at registration time, its listed position both in its own metadata and in its
definition's metadata, its back-reference set to the returned global stack,
and it is attached to the global stack's extruder map under that position. -/
theorem claim_c10_registered_extruder_invariants (app : CuraApplication) (st : BuildState)
    (name definition_id : String) (st2 : BuildState) (g : GlobalStack)
    (hrun : createMachine app st name definition_id = (st2, .ok (some g))) :
    ∃ added : List Entity,
      st2.registry.entities = st.registry.entities ++ added ∧
      ∀ s ∈ extruderEntities added, ∃ p,
        metaEntry s.metadata "position" = some p ∧
        metaEntry s.definition.metadata "position" = some p ∧
        s.nextStackId = some g.id ∧
        (p, s.id) ∈ g.extruders.map (fun pe => (pe.1, pe.2.id)) := by
  obtain ⟨md, rest, vr, mc, trains, reg2, g2, hfd', hvr, hmc, htr', hloop, hq, hst2⟩ :=
    createMachine_ok_inv hrun
  obtain ⟨cg1, cg2, hgs⟩ := createGlobalStack_spec app st.registry
    (generatedMachineName st.registry name md) md app.empty_variant_container
    app.empty_material_container app.empty_quality_container
  rw [hgs] at hloop
  obtain ⟨addedL, news, hregL, hglobL, hnodefL, hextL, hgfin, hlen, hfacts⟩ :=
    createExtruderStacks_ok_spec app definition_id vr.1 mc trains _ _ reg2 g2 hloop
  obtain ⟨qg, exts, hqg, hassign, hgdef⟩ := applyPreferredQuality_ok hq
  obtain ⟨hfst, hid, hfindq, hbase⟩ :=
    assignExtruderQualities_ok_facts qg g2.extruders exts hassign
  have hgx : g.extruders = exts := by rw [hgdef]
  have hg2x : g2.extruders = news := by rw [hgfin]; simp
  have hgid : g.id = g2.id := by rw [hgdef]
  have hpair : exts.map (fun pe => (pe.1, pe.2.id)) =
      g2.extruders.map (fun pe => (pe.1, pe.2.id)) := by
    rw [← List.zip_map', ← List.zip_map', hfst, hid]
  refine ⟨([.instC cg1, .instC cg2] ++ addedL) ++ [.globalStack g], ?_, ?_⟩
  · rw [hst2]
    simp only [ContainerRegistry.addContainer, hregL]
    simp [List.append_assoc]
  · intro s hs
    rw [extruderEntities_append, extruderEntities_append, hextL] at hs
    simp only [extruderEntities, List.filterMap_cons, List.filterMap_nil] at hs
    simp only [List.append_nil, List.nil_append, List.mem_map] at hs
    obtain ⟨pv, hpv, hpvs⟩ := hs
    obtain ⟨hmpos, hdpos, hnext, hvx, hmx, hqx⟩ := hfacts pv hpv
    refine ⟨pv.1, ?_, ?_, ?_, ?_⟩
    · rw [← hpvs]; exact hmpos
    · rw [← hpvs]; exact hdpos
    · rw [← hpvs, hnext, hgid, hgfin]
    · rw [hgx, hpair, hg2x, ← hpvs]
      exact List.mem_map.mpr ⟨pv, hpv, rfl⟩

/-! ### Witnesses and counterexamples at concrete inputs -/

/-- C1 witness: the two-extruder machine build satisfies the registration
ordering at a concrete input. -/
theorem claim_c1_witness :
    ∃ added : List Entity,
      (runW.1).registry.entities = stW.registry.entities ++ added ∧
      globalEntities added = [gW] ∧
      added.getLast? = some (.globalStack gW) ∧
      (extruderEntities added).length =
        ([("0", "um3_extruder_0"), ("1", "um3_extruder_1")] : List (String × String)).length ∧
      (extruderEntities added).map ExtruderStack.id =
        gW.extruders.map (fun pe => pe.2.id) ∧
      gW.extruders.length =
        ([("0", "um3_extruder_0"), ("1", "um3_extruder_1")] : List (String × String)).length :=
  claim_c1_global_registered_last appW stW "My Printer" "um3" runW.1 gW mdW []
    [("0", "um3_extruder_0"), ("1", "um3_extruder_1")] rfl rfl rfl

/-- C3 witness: a stale definition id is tolerated softly at a concrete
input. -/
theorem claim_c3_witness :
    createMachine appW stW "P" "ghost" =
      (logMessage stW "w" ("Definition " ++ "ghost" ++ " was not found!"), .ok none) :=
  (claim_c3_definition_not_found appW stW "P" "ghost").1 rfl

/-- C4 counterexample: a machine with `has_variants` but no preferred variant
name completes successfully with the empty variant container on its extruder,
although the variant collaborator resolves nothing — no error is raised, so
the claim's unconditional consult-and-raise does not hold. -/
theorem claim_c4_counterexample :
    parseBool (metaEntry mdV.metadata "has_variants") = true ∧
    appV.getVariantNode "mv" "AA 0.4" = none ∧
    isOkSome (createMachine appV stV "P" "mv").2 = true ∧
    ((resultGlobalStack (createMachine appV stV "P" "mv")).getD
        dummyGlobalStack).extruders.map (fun pe => pe.2.variant) =
      [appV.empty_variant_container] :=
  ⟨rfl, rfl, rfl, rfl⟩

/-- C4 witness: with a non-empty preferred variant name the collaborator miss
raises at a concrete input. -/
theorem claim_c4_witness :
    createMachine appV stV2 "P" "mv2" =
      (stV2, .error (.runtimeError ("Cannot find variant with definition [" ++ "mv2" ++
        "] and variant name [" ++ "AA 0.4" ++ "]"))) :=
  claim_c4_missing_variant_raises appV stV2 "P" "mv2" mdV2 [] "AA 0.4" rfl rfl rfl
    (by decide) rfl

/-- C5 witness: the material-node miss raises at a concrete input. -/
theorem claim_c5_witness :
    createMachine appV stM "P" "mm" =
      (stM, .error (.runtimeError ("Cannot find material with definition [" ++ "mm" ++
        "], variant_name [" ++ pyStr (appV.empty_variant_container, (none : Option String)).2 ++
        "], and root_material_id [" ++
        pyStr (appV.getRootMaterialIDForDiameter (metaEntry mdM.metadata "preferred_material")
          (toString (pyRound mdM.material_diameter))) ++ "]"))) :=
  claim_c5_missing_material_raises appV stM "P" "mm" mdM []
    (appV.empty_variant_container, none) rfl rfl rfl rfl

/-- C2 counterexample: the position mismatch raises, but the registry has
grown by the two helper containers created for the global stack — the call
did not register nothing. -/
theorem claim_c2_counterexample :
    (createMachine appV stA "Printer" "mA").2 =
      .error (.runtimeError ("Extruder position [0] defined in extruder definition [eA]" ++
        " is not the same as in machine definition [mA] position [1]")) ∧
    ((createMachine appV stA "Printer" "mA").1).registry.entities.length =
      stA.registry.entities.length + 2 :=
  ⟨rfl, rfl⟩

/-- C2 witness: at a mismatch at the *second* listed position the raise leaves
no global stack and exactly one (earlier-position) extruder stack registered,
plus helper containers — the registry did grow. -/
theorem claim_c2_witness :
    ∃ added : List Entity,
      createMachine appV stB "Printer" "mB" =
        ({ stB with registry := { entities := stB.registry.entities ++ added } },
         .error (.runtimeError ("Extruder position [" ++
           pyStr (metaEntry edB1.metadata "position") ++
           "] defined in extruder definition [" ++ "eB1" ++
           "] is not the same as in machine definition [" ++ "mB" ++
           "] position [" ++ "1" ++ "]"))) ∧
      globalEntities added = [] ∧
      (extruderEntities added).length = ([("0", "eB0")] : List (String × String)).length :=
  claim_c2_mismatch_partial_registration appV stB "Printer" "mB" mdB []
    (appV.empty_variant_container, none) appV.empty_material_container
    [("0", "eB0")] "1" "eB1" [] edB1 [] c2LoopCall.1 c2G1
    rfl rfl rfl rfl rfl rfl (by decide)

/-- C6 witness: the asymmetry holds at the concrete two-extruder build. -/
theorem claim_c6_witness :
    gW.variant = appW.empty_variant_container ∧
    gW.material = appW.empty_material_container ∧
    ∀ pe ∈ gW.extruders, pe.2.variant = appW.empty_variant_container ∧
      pe.2.material = appW.empty_material_container :=
  claim_c6_variant_material_asymmetry appW stW "My Printer" "um3" runW.1 gW mdW []
    appW.empty_variant_container none appW.empty_material_container rfl rfl rfl rfl

/-- C7 witness: the two-step name allocation holds at the concrete build. -/
theorem claim_c7_witness :
    gW.name = generatedMachineName stW.registry "My Printer" mdW ∧
    (stW.registry.findContainersMetadata
        (stW.registry.createUniqueName "machine" "" "My Printer" mdW.name) = [] →
      gW.name = stW.registry.createUniqueName "machine" "" "My Printer" mdW.name) ∧
    (stW.registry.findContainersMetadata
        (stW.registry.createUniqueName "machine" "" "My Printer" mdW.name) ≠ [] →
      gW.name = stW.registry.uniqueName
        (stW.registry.createUniqueName "machine" "" "My Printer" mdW.name)) ∧
    ("My Printer" ≠ "" →
      stW.registry.createUniqueName "machine" "" "My Printer" mdW.name =
        stW.registry.stackUniqueName "machine" "My Printer") ∧
    ("My Printer" = "" →
      stW.registry.createUniqueName "machine" "" "My Printer" mdW.name =
        stW.registry.stackUniqueName "machine" mdW.name) :=
  claim_c7_name_allocation appW stW "My Printer" "um3" runW.1 gW mdW [] rfl rfl

/-- C8 witness: the preferred quality group is applied at the concrete
build. -/
theorem claim_c8_witness :
    ∃ vr mc trains reg2 g2 qg,
      resolveVariantContainer appW mdW "um3" = .ok vr ∧
      resolveMaterialContainer appW mdW "um3" vr.2 = .ok mc ∧
      mdW.machine_extruder_trains = some trains ∧
      createExtruderStacks appW "um3" vr.1 mc trains
        { (createGlobalStack appW stW.registry
            (generatedMachineName stW.registry "My Printer" mdW) mdW
            appW.empty_variant_container appW.empty_material_container
            appW.empty_quality_container).1
          with name := generatedMachineName stW.registry "My Printer" mdW }
        (createGlobalStack appW stW.registry
            (generatedMachineName stW.registry "My Printer" mdW) mdW
            appW.empty_variant_container appW.empty_material_container
            appW.empty_quality_container).2 = (reg2, .ok g2) ∧
      (metaEntry mdW.metadata "preferred_quality_type").bind
        (fun t => findPos (appW.getQualityGroups g2) t) = some qg ∧
      gW.quality = qg.node_for_global ∧
      gW.extruders.map Prod.fst = g2.extruders.map Prod.fst ∧
      (∀ pe ∈ gW.extruders, findPos qg.nodes_for_extruders pe.1 = some pe.2.quality) :=
  claim_c8_applies_preferred_quality appW stW "My Printer" "um3" runW.1 gW mdW [] rfl rfl

/-- C9 witness: with no quality groups on offer the concrete run fails with
the unhandled attribute error, the registry retaining the loop's additions. -/
theorem claim_c9_witness :
    createMachine appW9 stW "My Printer" "um3" =
      ({ stW with registry := c9LoopCall.1 }, .error .attributeError) :=
  (claim_c9_quality_group_precondition appW9 stW "My Printer" "um3" mdW []
    (appW9.empty_variant_container, none) appW9.empty_material_container
    [("0", "um3_extruder_0"), ("1", "um3_extruder_1")] c9LoopCall.1 c9G2
    rfl rfl rfl rfl rfl).1 rfl

/-- C10 witness: the registered-extruder invariants hold at the concrete
build. -/
theorem claim_c10_witness :
    ∃ added : List Entity,
      (runW.1).registry.entities = stW.registry.entities ++ added ∧
      ∀ s ∈ extruderEntities added, ∃ p,
        metaEntry s.metadata "position" = some p ∧
        metaEntry s.definition.metadata "position" = some p ∧
        s.nextStackId = some gW.id ∧
        (p, s.id) ∈ gW.extruders.map (fun pe => (pe.1, pe.2.id)) :=
  claim_c10_registered_extruder_invariants appW stW "My Printer" "um3" runW.1 gW rfl

end Cura
